import Mathlib

/-!
Verification development for the tilequeue expired-tile propagation engine
(`tilequeue/command.py` plus the spec-described `tilequeue.tile`,
`tilequeue.cache` and `tilequeue.queue` collaborators).

The definitions below are a shallow embedding of the Python source.  Pure
functions become Lean functions; fallible Python code (assertions, raised
exceptions) becomes `Except PyError`; the filesystem is explicit state.
Functions of this repository that are imported by `command.py` but whose
module is not part of the sources at hand (`tilequeue.tile`,
`tilequeue.cache`, `tilequeue.queue`) are modelled from the specification
and carry a doc comment saying so.
-/

/-- Python exception values that the embedded code can raise. -/
inductive PyError
  | assertionError (msg : String)
  | valueError (msg : String)
  | typeError (msg : String)
  | ioError (msg : String)
deriving DecidableEq, Repr

/-- A tile coordinate: zoom, column, row (`tilequeue`'s Coordinate value). -/
structure Coord where
  zoom : Nat
  column : Nat
  row : Nat
deriving DecidableEq, Repr

/-- One line of an expired-tiles list file, abstracted: after stripping it is
either blank, malformed (fails to parse as a coordinate), or carries the three
integer fields of the `zoom/column/row` format. -/
inductive Line
  | blank
  | malformed
  | coordLine (z x y : Nat)
deriving DecidableEq, Repr

/-- Modelled from the spec: `tilequeue.tile.parse_expired_coord_string`
(module not in the sources at hand).  Parses a whitespace-trimmed
`zoom/column/row` line; any non-integer field or out-of-range field yields a
parse failure (`none`), per the spec's parse-boundary bounds checks. -/
def parse_expired_coord_string : Line → Option Coord
  | Line.blank => none
  | Line.malformed => none
  | Line.coordLine z x y =>
      if z ≤ 20 ∧ x < 2 ^ z ∧ y < 2 ^ z then some (Coord.mk z x y) else none

/-- Modelled from the spec: `tilequeue.cache.serialize_coord_to_redis_value`
(module not in the sources at hand).  A fixed-width token for (zoom, column,
row) that is byte-comparable consistently with the structural coordinate
ordering and round-trips exactly. -/
def serialize_coord_to_redis_value (c : Coord) : Nat :=
  (c.zoom * 2 ^ 64 + c.column) * 2 ^ 64 + c.row

/-- Modelled from the spec: `tilequeue.cache.deserialize_redis_value_to_coord`
(module not in the sources at hand); inverse of the fixed-width encoding. -/
def deserialize_redis_value_to_coord (n : Nat) : Coord :=
  Coord.mk (n / 2 ^ 128) (n / 2 ^ 64 % 2 ^ 64) (n % 2 ^ 64)

/-- `command.py` `serialize_coords`: serialize each coordinate of the stream. -/
def serialize_coords (coords : List Coord) : List Nat :=
  coords.map serialize_coord_to_redis_value

/-- `command.py` `deserialized_coords`: deserialize each token of the stream. -/
def deserialized_coords (serialized : List Nat) : List Coord :=
  serialized.map deserialize_redis_value_to_coord

/-- Parent tile of a coordinate: zoom - 1, floor-halved column and row. -/
def zoom_parent (c : Coord) : Coord :=
  Coord.mk (c.zoom - 1) (c.column / 2) (c.row / 2)

/-- The coordinate followed by `n` successive parents. -/
def ancestor_chain : Coord → Nat → List Coord
  | c, 0 => [c]
  | c, Nat.succ n => c :: ancestor_chain (zoom_parent c) n

/-- All ancestors of `c` from `c` itself down to zoom `untilZoom` inclusive. -/
def explode_one (c : Coord) (untilZoom : Nat) : List Coord :=
  ancestor_chain c (c.zoom - untilZoom)

/-- Worker loop for `explode_serialized_coords`: walks the input tokens,
emitting each leaf's ancestor chain while an accumulator of already-emitted
tokens suppresses duplicates shared between leaves. -/
def explode_go : List Nat → Nat → List Nat → List Nat → Except PyError (List Nat)
  | [], _, emitted, _ => Except.ok emitted
  | s :: rest, t, emitted, seen =>
      let c := deserialize_redis_value_to_coord s
      if c.zoom < t then
        Except.error (PyError.valueError "explode until greater than coordinate zoom")
      else
        let chain := (explode_one c t).map serialize_coord_to_redis_value
        let acc := chain.foldl
          (fun (q : List Nat × List Nat) a =>
            if a ∈ q.2 then q else (q.1 ++ [a], a :: q.2))
          (emitted, seen)
        explode_go rest t acc.1 acc.2

/-- Modelled from the spec: `tilequeue.tile.explode_serialized_coords`
(module not in the sources at hand).  For each leaf token, emit the leaf and
all its ancestors up to the target zoom (zoom 0 when the target is omitted),
deduplicating shared ancestors incrementally via an accumulator of
already-emitted tokens; a target zoom above a leaf's zoom is a contract
violation reported as an error. -/
def explode_serialized_coords (serialized : List Nat) (untilZoom : Option Nat) :
    Except PyError (List Nat) :=
  explode_go serialized (untilZoom.getD 0) [] []

/-- Model of Python 2 percent-formatting as used at `command.py` line 271:
applying `%` to a format string holding no conversion specifier and an
argument raises `TypeError: not all arguments converted during string
formatting`. -/
def pyPercentFormat (fmt : String) (_arg : α) : Except PyError String :=
  if ('%' ∈ fmt.toList) then Except.ok fmt
  else Except.error (PyError.typeError "not all arguments converted during string formatting")

/-- The warning format string at `command.py` line 271 (it contains no
conversion specifier). -/
def could_not_parse_fmt : String := "Could not parse coordinate from line: "

/-- `command.py` `create_coords_generator_from_tiles_file`: strip each line,
skip blank lines, parse the rest; on a parse failure, if a logger was supplied
the code evaluates the warning message by percent-formatting
`could_not_parse_fmt` with the line, otherwise it just continues. -/
def create_coords_generator_from_tiles_file :
    List Line → Option Unit → Except PyError (List Coord)
  | [], _ => Except.ok []
  | line :: rest, logger =>
      match line with
      | Line.blank => create_coords_generator_from_tiles_file rest logger
      | _ =>
        match parse_expired_coord_string line with
        | some coord =>
            match create_coords_generator_from_tiles_file rest logger with
            | Except.ok coords => Except.ok (coord :: coords)
            | Except.error e => Except.error e
        | none =>
            match logger with
            | some _ =>
                match pyPercentFormat could_not_parse_fmt line with
                | Except.error e => Except.error e
                | Except.ok _ => create_coords_generator_from_tiles_file rest logger
            | none => create_coords_generator_from_tiles_file rest logger

/-- Modelled from the spec: `tilequeue.cache.RedisCacheIndex.intersect`
(module not in the sources at hand).  For each input coordinate, test
membership of its serialized token in the cache set; the semantics are
deliberately to pass the tiles that ARE members of the cache set. -/
def redis_cache_index_intersect (cacheSet : List Nat) (coords : List Coord) :
    List Coord :=
  coords.filter (fun c => decide (serialize_coord_to_redis_value c ∈ cacheSet))

/-- The exploded-coordinate stream of `tilequeue_intersect` (`command.py`
lines 297-304): read coordinates from the file lines (no logger is passed),
serialize, explode with the configured target zoom, deserialize. -/
def explodedCoordsOf (lines : List Line) (untilZoom : Option Nat) :
    Except PyError (List Coord) :=
  match create_coords_generator_from_tiles_file lines none with
  | Except.error e => Except.error e
  | Except.ok expired_tiles =>
      match explode_serialized_coords (serialize_coords expired_tiles) untilZoom with
      | Except.error e => Except.error e
      | Except.ok exploded_serialized_coords =>
          Except.ok (deserialized_coords exploded_serialized_coords)

/-- The coordinates that `tilequeue_intersect` enqueues (`command.py` lines
297-312): the exploded stream filtered through the cache index's
`intersect`. -/
def tilequeue_intersect_survivors (cacheSet : List Nat) (lines : List Line)
    (untilZoom : Option Nat) : Except PyError (List Coord) :=
  match explodedCoordsOf lines untilZoom with
  | Except.error e => Except.error e
  | Except.ok exploded_coords =>
      Except.ok (redis_cache_index_intersect cacheSet exploded_coords)

/-- Reading the lines of the open expired-tile file: pulling a line may raise
an I/O error, which aborts the stream. -/
def read_lines : List (Except PyError Line) → Except PyError (List Line)
  | [] => Except.ok []
  | Except.error e :: _ => Except.error e
  | Except.ok l :: rest =>
      match read_lines rest with
      | Except.error e => Except.error e
      | Except.ok ls => Except.ok (l :: ls)

/-- Modelled from the spec: `RedisCacheIndex.intersect` against a live
backend — each membership test may fail (storage-backend connection failure
is fatal to the invocation, not retried). -/
def redis_cache_index_intersect_fallible (member : Nat → Except PyError Bool) :
    List Coord → Except PyError (List Coord)
  | [] => Except.ok []
  | c :: rest =>
      match member (serialize_coord_to_redis_value c) with
      | Except.error e => Except.error e
      | Except.ok b =>
          match redis_cache_index_intersect_fallible member rest with
          | Except.error e => Except.error e
          | Except.ok tail => Except.ok (if b then c :: tail else tail)

/-- The survivor stream of a `tilequeue_intersect` run with fallible reading
and a fallible cache-index backend (`command.py` lines 297-306). -/
def intersect_run_survivors (lines : List (Except PyError Line))
    (untilZoom : Option Nat) (member : Nat → Except PyError Bool) :
    Except PyError (List Coord) :=
  match read_lines lines with
  | Except.error e => Except.error e
  | Except.ok rawLines =>
      match explodedCoordsOf rawLines untilZoom with
      | Except.error e => Except.error e
      | Except.ok exploded => redis_cache_index_intersect_fallible member exploded

/-- The enqueue loop of `tilequeue_intersect` (`command.py` lines 308-313):
each `queue.enqueue` may raise, which aborts the run. -/
def enqueue_all (enqueue : Coord → Except PyError Unit) :
    List Coord → Except PyError Unit
  | [] => Except.ok ()
  | c :: rest =>
      match enqueue c with
      | Except.error e => Except.error e
      | Except.ok _ => enqueue_all enqueue rest

/-- `command.py` `tilequeue_intersect` (lines 290-316), with its destructive
side effect made explicit: the result is the run's outcome paired with
whether `os.remove` on the expired-tile file was reached.  The two leading
assertions guard the file configuration; the removal statement sits after the
`with` block, so it runs only when every prior stage returned normally. -/
def tilequeue_intersect_run (cfgFileSet fileExists : Bool)
    (lines : List (Except PyError Line)) (untilZoom : Option Nat)
    (member : Nat → Except PyError Bool)
    (enqueue : Coord → Except PyError Unit) :
    Except PyError Unit × Bool :=
  if cfgFileSet = false then
    (Except.error (PyError.assertionError "Missing expired tiles file"), false)
  else if fileExists = false then
    (Except.error (PyError.assertionError "Invalid expired tiles path"), false)
  else
    match intersect_run_survivors lines untilZoom member with
    | Except.error e => (Except.error e, false)
    | Except.ok survivors =>
        match enqueue_all enqueue survivors with
        | Except.error e => (Except.error e, false)
        | Except.ok _ => (Except.ok (), true)

/-- The progress-log trace of the enqueue loop (`command.py` lines 307-311):
starting from counter `i`, each processed coordinate increments the counter,
and `logger.info("processed %d entries", i)` fires exactly when the counter
hits a multiple of 500000.  The returned list records the counter values at
which a progress message was logged. -/
def enqueue_loop_progress_logs : Nat → List Coord → List Nat
  | _, [] => []
  | i, _ :: rest =>
      let j := i + 1
      if j % 500000 = 0 then j :: enqueue_loop_progress_logs j rest
      else enqueue_loop_progress_logs j rest

/-- The interchangeable work-queue backends selected by `make_queue`. -/
inductive QueueBackend
  | sqs
  | mem
  | fileQueue (path : String)
  | stdoutQueue
deriving DecidableEq, Repr

/-- Filesystem model: an association of paths to file contents. -/
abbrev FileSystem := List (String × String)

/-- Contents of the file at `path`, when one exists. -/
def fsLookup (fs : FileSystem) (path : String) : Option String :=
  List.lookup path fs

/-- Model of Python `open(path, 'w')`: the file at `path` now has the given
(empty) contents, shadowing whatever was there before. -/
def fsWrite (fs : FileSystem) (path content : String) : FileSystem :=
  (path, content) :: fs

/-- `command.py` `make_queue` (lines 137-154): dispatch on the queue-type
string; the `'file'` branch does `open(queue_name, 'w')`, truncating the file
at construction time; an unknown type raises `ValueError`. -/
def make_queue (queue_type queue_name : String) (fs : FileSystem) :
    Except PyError (QueueBackend × FileSystem) :=
  if queue_type = "sqs" then Except.ok (QueueBackend.sqs, fs)
  else if queue_type = "mem" then Except.ok (QueueBackend.mem, fs)
  else if queue_type = "file" then
    Except.ok (QueueBackend.fileQueue queue_name, fsWrite fs queue_name "")
  else if queue_type = "stdout" then Except.ok (QueueBackend.stdoutQueue, fs)
  else Except.error (PyError.valueError ("Unknown queue type: " ++ queue_type))

/-- `command.py` `uniquify_generator` (lines 367-370): `s = set(generator)`
followed by yielding the members of `s`.  CPython's set of small
non-negative integers (whose hash is the integer itself) iterates its hash
table in increasing value order, so set iteration is modelled as the sorted
sequence of the distinct input elements; the whole input is consumed by the
`set(...)` call before the first element is yielded. -/
def uniquify_generator (l : List Nat) : List Nat :=
  List.insertionSort (· ≤ ·) l.dedup

/-- Modelled from the spec: set iteration over deduplicated coordinates, used
by `make_seed_tile_generator` when `--unique-tiles` is set; ordered by the
fixed-width serialized token (byte-comparable with coordinate ordering). -/
def uniquify_coords (l : List Coord) : List Coord :=
  List.insertionSort
    (fun a b => serialize_coord_to_redis_value a ≤ serialize_coord_to_redis_value b)
    l.dedup

/-- Every tile coordinate at zoom `z`. -/
def tiles_at_zoom (z : Nat) : List Coord :=
  (List.range (2 ^ z)).flatMap
    (fun col => (List.range (2 ^ z)).map (fun row => Coord.mk z col row))

/-- Modelled from the spec: `tilequeue.tile.seed_tiles` (module not in the
sources at hand) — every tile at each zoom level of the inclusive range. -/
def seed_tiles (zoomStart zoomUntil : Nat) : List Coord :=
  (List.range (zoomUntil + 1 - zoomStart)).flatMap (fun k => tiles_at_zoom (zoomStart + k))

/-- The configuration fields consulted by `make_seed_tile_generator`.
`filter_metro_zoom`, `zoom_start` and `zoom_until` are argparse integer
options with default 0, so they are never unset. -/
structure SeedCfg where
  metro_extract_url : Option String
  filter_metro_zoom : Nat
  zoom_until : Nat
  zoom_start : Nat
  unique_tiles : Bool
deriving DecidableEq, Repr

/-- The end zoom of the unfiltered (whole-world) pyramid in
`make_seed_tile_generator`: `filter_metro_zoom - 1` when a metro-extract URL
is given, else `zoom_until` (Python integer arithmetic, so it can be -1). -/
def unfiltered_end_zoom_of (cfg : SeedCfg) : Int :=
  match cfg.metro_extract_url with
  | some _ => (cfg.filter_metro_zoom : Int) - 1
  | none => (cfg.zoom_until : Int)

/-- `command.py` `make_seed_tile_generator` (lines 373-402).  The metro
extract fetch and bounding-box tile generation are external collaborators
(HTTP + geometry), represented by the `metroTiles` parameter.  The assertions
run eagerly, before any tile of the returned generator is produced: a metro
URL with `filter_metro_zoom > zoom_until` fails, `filter_metro_zoom` set
without a URL fails, and `zoom_start` above the unfiltered end zoom fails. -/
def make_seed_tile_generator (cfg : SeedCfg) (metroTiles : List Coord) :
    Except PyError (List Coord) :=
  match cfg.metro_extract_url with
  | some _ =>
      if cfg.filter_metro_zoom ≤ cfg.zoom_until then
        let filtered_tiles :=
          if cfg.unique_tiles then uniquify_coords metroTiles else metroTiles
        let unfiltered_end_zoom : Int := (cfg.filter_metro_zoom : Int) - 1
        if (cfg.zoom_start : Int) ≤ unfiltered_end_zoom then
          Except.ok (seed_tiles cfg.zoom_start unfiltered_end_zoom.toNat ++ filtered_tiles)
        else Except.error (PyError.assertionError "zoom start above unfiltered end zoom")
      else Except.error (PyError.assertionError "filter metro zoom above zoom until")
  | none =>
      if cfg.filter_metro_zoom = 0 then
        if (cfg.zoom_start : Int) ≤ (cfg.zoom_until : Int) then
          Except.ok (seed_tiles cfg.zoom_start cfg.zoom_until)
        else Except.error (PyError.assertionError "zoom start above unfiltered end zoom")
      else
        Except.error (PyError.assertionError
          "metro extract url is required when specifying filter metro zoom")

/-- The configuration fields consulted before subcommand dispatch in
`tilequeue_main`.  Optional argparse values are `none` when unset. -/
structure MainCfg where
  redis_host : Option String
  redis_port : Option Nat
  redis_db : Option Nat
  redis_cache_set_key : Option String
  queue_type : String
  queue_name : String
deriving DecidableEq, Repr

/-- Python truthiness of an optional string: `None` and `''` are falsy. -/
def pyTruthyStr : Option String → Bool
  | none => false
  | some s => !(s == "")

/-- Python truthiness of an optional integer: `None` and `0` are falsy. -/
def pyTruthyNat : Option Nat → Bool
  | none => false
  | some n => !(n == 0)

/-- `command.py` `assert_redis_config` (lines 257-261): assert that the redis
host, port and cache-set-key settings are all truthy. -/
def assert_redis_config (cfg : MainCfg) : Except PyError Unit :=
  if pyTruthyStr cfg.redis_host then
    if pyTruthyNat cfg.redis_port then
      if pyTruthyStr cfg.redis_cache_set_key then Except.ok ()
      else Except.error (PyError.assertionError "Missing redis cache set key name")
    else Except.error (PyError.assertionError "Missing redis port")
  else Except.error (PyError.assertionError "Missing redis host")

/-- The constructed Redis cache index handle (client plus set key). -/
structure RedisCacheIndex where
  host : String
  port : Nat
  cache_set_key : String
deriving DecidableEq, Repr

/-- `command.py` `make_redis_cache_index` (lines 276-281): asserts the redis
configuration, then builds the client and index handle. -/
def make_redis_cache_index (cfg : MainCfg) : Except PyError RedisCacheIndex :=
  match assert_redis_config cfg with
  | Except.error e => Except.error e
  | Except.ok _ =>
      Except.ok
        (RedisCacheIndex.mk (cfg.redis_host.getD "") (cfg.redis_port.getD 0)
          (cfg.redis_cache_set_key.getD ""))

/-- The six subcommands registered by `tilequeue_main`. -/
inductive Subcommand
  | process
  | seed
  | explode
  | drain
  | cacheIndexSeed
  | intersect
deriving DecidableEq, Repr

/-- `command.py` `tilequeue_main` (lines 427-453), from the point where the
configuration is in hand: the `Peripherals` tuple is built first —
`make_redis_cache_index(cfg)` then `make_queue(...)` — and only then is the
chosen subcommand's function dispatched.  A successful result carries the
dispatched subcommand and the filesystem after queue construction. -/
def tilequeue_main (cfg : MainCfg) (cmd : Subcommand) (fs : FileSystem) :
    Except PyError (Subcommand × FileSystem) :=
  match make_redis_cache_index cfg with
  | Except.error e => Except.error e
  | Except.ok _ =>
      match make_queue cfg.queue_type cfg.queue_name fs with
      | Except.error e => Except.error e
      | Except.ok q => Except.ok (cmd, q.2)

/-! ## Supporting lemmas -/

theorem enqueue_all_ok_mem (enqueue : Coord → Except PyError Unit)
    (l : List Coord) (h : enqueue_all enqueue l = Except.ok ()) :
    ∀ c ∈ l, enqueue c = Except.ok () := by
  induction l with
  | nil => intro c hc; simp at hc
  | cons a rest ih =>
      intro c hc
      simp only [enqueue_all] at h
      cases he : enqueue a with
      | error e => rw [he] at h; simp at h
      | ok u =>
          rw [he] at h
          rcases List.mem_cons.mp hc with h1 | h1
          · subst h1; cases u; exact he
          · exact ih h c h1

theorem enqueue_loop_progress_logs_mem (n : Nat) :
    ∀ (coords : List Coord) (i : Nat),
      n ∈ enqueue_loop_progress_logs i coords ↔
        (i < n ∧ n % 500000 = 0 ∧ n ≤ i + coords.length)
  | [], i => by
      simp only [enqueue_loop_progress_logs, List.length_nil]
      constructor
      · intro hmem
        exact absurd hmem (List.not_mem_nil n)
      · intro hc
        exact absurd (And.intro hc.1 hc.2.2) (by omega)
  | _ :: rest, i => by
      have ih := enqueue_loop_progress_logs_mem n rest (i + 1)
      by_cases h : (i + 1) % 500000 = 0
      · simp only [enqueue_loop_progress_logs, h, if_true, List.mem_cons, ih,
          List.length_cons]
        omega
      · simp only [enqueue_loop_progress_logs, h, if_false, ih, List.length_cons]
        omega

theorem assert_redis_config_unset (cfg : MainCfg)
    (h : cfg.redis_host = none ∨ cfg.redis_port = none ∨
      cfg.redis_cache_set_key = none) :
    ∃ msg, assert_redis_config cfg = Except.error (PyError.assertionError msg) := by
  rcases h with h | h | h
  · exact ⟨"Missing redis host", by simp [assert_redis_config, h, pyTruthyStr]⟩
  · cases hh : pyTruthyStr cfg.redis_host with
    | false => exact ⟨"Missing redis host", by simp [assert_redis_config, hh]⟩
    | true =>
        refine ⟨"Missing redis port", ?_⟩
        have hp : pyTruthyNat cfg.redis_port = false := by rw [h]; rfl
        simp [assert_redis_config, hh, hp]
  · cases hh : pyTruthyStr cfg.redis_host with
    | false => exact ⟨"Missing redis host", by simp [assert_redis_config, hh]⟩
    | true =>
        cases hp : pyTruthyNat cfg.redis_port with
        | false => exact ⟨"Missing redis port", by simp [assert_redis_config, hh, hp]⟩
        | true =>
            refine ⟨"Missing redis cache set key name", ?_⟩
            have hk : pyTruthyStr cfg.redis_cache_set_key = false := by rw [h]; rfl
            simp [assert_redis_config, hh, hp, hk]

/-! ## Claim theorems -/

/-- C1 (counterexample): the claim "with an empty cache index every exploded
coordinate is enqueued" fails: the single line `1/0/0` explodes (target zoom
0) to the two coordinates (1,0,0) and (0,0,0), yet against an empty cache
index the intersect run enqueues nothing — `intersect` passes members of the
cache set, not non-members. -/
theorem tilequeue_intersect_set_difference_counterexample :
    explodedCoordsOf [Line.coordLine 1 0 0] (some 0) =
        Except.ok [Coord.mk 1 0 0, Coord.mk 0 0 0]
    ∧ tilequeue_intersect_survivors [] [Line.coordLine 1 0 0] (some 0) =
        Except.ok [] :=
  ⟨rfl, rfl⟩

/-- C1 (amended): in the intersect run, an exploded coordinate is enqueued if
and only if it IS present in the cache index set (the membership variant): a
tile not recorded as cached is never enqueued, and with an empty cache index
no exploded coordinate is enqueued. -/
theorem tilequeue_intersect_enqueues_cache_members (cacheSet : List Nat)
    (lines : List Line) (untilZoom : Option Nat) (ex svs : List Coord)
    (h1 : explodedCoordsOf lines untilZoom = Except.ok ex)
    (h2 : tilequeue_intersect_survivors cacheSet lines untilZoom = Except.ok svs)
    (c : Coord) :
    c ∈ svs ↔ (c ∈ ex ∧ serialize_coord_to_redis_value c ∈ cacheSet) := by
  unfold tilequeue_intersect_survivors at h2
  rw [h1] at h2
  injection h2 with h2
  subst h2
  simp [redis_cache_index_intersect, List.mem_filter]

/-- Witness for C1's amended theorem at a concrete input: line `1/1/1`,
target zoom 1, cache set holding exactly that tile's token. -/
theorem tilequeue_intersect_enqueues_cache_members_witness :
    Coord.mk 1 1 1 ∈ ([Coord.mk 1 1 1] : List Coord) :=
  (tilequeue_intersect_enqueues_cache_members
      [serialize_coord_to_redis_value (Coord.mk 1 1 1)]
      [Line.coordLine 1 1 1] (some 1) [Coord.mk 1 1 1] [Coord.mk 1 1 1]
      rfl rfl (Coord.mk 1 1 1)).mpr ⟨by decide, by decide⟩

/-- C2 (counterexample): with input line `10/512/512`, target-explode zoom 8
and an EMPTY cache index, the run enqueues nothing — not the three claimed
coordinates — although exploding does produce exactly those three. -/
theorem tilequeue_intersect_empty_cache_counterexample :
    tilequeue_intersect_survivors [] [Line.coordLine 10 512 512] (some 8) =
        Except.ok []
    ∧ explodedCoordsOf [Line.coordLine 10 512 512] (some 8) =
        Except.ok [Coord.mk 10 512 512, Coord.mk 9 256 256, Coord.mk 8 128 128] :=
  ⟨rfl, rfl⟩

/-- C2 (amended): with input line `10/512/512`, target-explode zoom 8 and a
cache index containing the three exploded coordinates, the intersect run
enqueues exactly (10,512,512), (9,256,256), (8,128,128) and no others. -/
theorem tilequeue_intersect_three_coords_when_cached :
    tilequeue_intersect_survivors
        [serialize_coord_to_redis_value (Coord.mk 10 512 512),
         serialize_coord_to_redis_value (Coord.mk 9 256 256),
         serialize_coord_to_redis_value (Coord.mk 8 128 128)]
        [Line.coordLine 10 512 512] (some 8) =
      Except.ok [Coord.mk 10 512 512, Coord.mk 9 256 256, Coord.mk 8 128 128] :=
  rfl

/-- C3: the intersect run reaches `os.remove` on the expired-tile file if and
only if the whole run (reading, exploding, intersecting and every enqueue)
returned without error; on any error the file is left intact, and when the
file is deleted every surviving coordinate was accepted by the queue. -/
theorem tilequeue_intersect_deletes_file_only_on_success
    (cfgFileSet fileExists : Bool) (lines : List (Except PyError Line))
    (untilZoom : Option Nat) (member : Nat → Except PyError Bool)
    (enqueue : Coord → Except PyError Unit) :
    ((tilequeue_intersect_run cfgFileSet fileExists lines untilZoom member enqueue).2
        = true
      ↔ (tilequeue_intersect_run cfgFileSet fileExists lines untilZoom member
          enqueue).1 = Except.ok ())
    ∧ (∀ svs,
        (tilequeue_intersect_run cfgFileSet fileExists lines untilZoom member
          enqueue).2 = true →
        intersect_run_survivors lines untilZoom member = Except.ok svs →
        ∀ c ∈ svs, enqueue c = Except.ok ()) := by
  cases cfgFileSet with
  | false => simp [tilequeue_intersect_run]
  | true =>
    cases fileExists with
    | false => simp [tilequeue_intersect_run]
    | true =>
      cases hs : intersect_run_survivors lines untilZoom member with
      | error e => simp [tilequeue_intersect_run, hs]
      | ok svs0 =>
        cases he : enqueue_all enqueue svs0 with
        | error e => simp [tilequeue_intersect_run, hs, he]
        | ok u =>
          cases u
          refine ⟨by simp [tilequeue_intersect_run, hs, he], ?_⟩
          intro svs _ hsvs
          injection hsvs with hh
          subst hh
          exact enqueue_all_ok_mem enqueue svs0 he

/-- Witness for C3 at a concrete successful run: one readable line, an
all-members cache backend and an always-accepting queue. -/
theorem tilequeue_intersect_deletes_file_only_on_success_witness :
    (tilequeue_intersect_run true true [Except.ok (Line.coordLine 1 0 0)] (some 0)
        (fun _ => Except.ok true) (fun _ => Except.ok ())).1 = Except.ok () :=
  ((tilequeue_intersect_deletes_file_only_on_success true true
      [Except.ok (Line.coordLine 1 0 0)] (some 0)
      (fun _ => Except.ok true) (fun _ => Except.ok ())).1).mp (by rfl)

/-- C4: evaluation at the failing input.  When a logger IS supplied, a
malformed line makes the coordinate reader raise
`TypeError: not all arguments converted during string formatting` (the
warning call formats a string containing no conversion specifier with the
line), aborting the whole run instead of logging and skipping; with no
logger the malformed line is silently skipped and the stream continues. -/
theorem create_coords_generator_malformed_line_eval :
    create_coords_generator_from_tiles_file [Line.malformed] (some ()) =
        Except.error
          (PyError.typeError "not all arguments converted during string formatting")
    ∧ create_coords_generator_from_tiles_file
        [Line.malformed, Line.coordLine 3 2 1] none = Except.ok [Coord.mk 3 2 1] :=
  ⟨rfl, rfl⟩

/-- C5: in the enqueue loop of the intersect run, a progress message is
logged exactly at the counts that are positive multiples of 500000 (and at
most the stream's length), for every surviving-coordinate stream. -/
theorem enqueue_loop_progress_logs_spec (coords : List Coord) (n : Nat) :
    n ∈ enqueue_loop_progress_logs 0 coords ↔
      (0 < n ∧ n % 500000 = 0 ∧ n ≤ coords.length) := by
  have h := enqueue_loop_progress_logs_mem n coords 0
  simpa using h

/-- C6: `make_queue` is a closed map over backend kinds: each of the four
type strings yields the corresponding backend, and every other type string
raises `ValueError`. -/
theorem make_queue_closed_map (qt qn : String) (fs : FileSystem) :
    (qt = "sqs" → make_queue qt qn fs = Except.ok (QueueBackend.sqs, fs))
    ∧ (qt = "mem" → make_queue qt qn fs = Except.ok (QueueBackend.mem, fs))
    ∧ (qt = "file" →
        make_queue qt qn fs =
          Except.ok (QueueBackend.fileQueue qn, fsWrite fs qn ""))
    ∧ (qt = "stdout" →
        make_queue qt qn fs = Except.ok (QueueBackend.stdoutQueue, fs))
    ∧ (qt ∉ (["sqs", "mem", "file", "stdout"] : List String) →
        make_queue qt qn fs =
          Except.error (PyError.valueError ("Unknown queue type: " ++ qt))) := by
  refine ⟨?_, ?_, ?_, ?_, ?_⟩ <;> intro h
  · subst h; rfl
  · subst h; rfl
  · subst h; rfl
  · subst h; rfl
  · simp only [List.mem_cons, List.not_mem_nil, or_false, not_or] at h
    obtain ⟨h1, h2, h3, h4⟩ := h
    simp [make_queue, h1, h2, h3, h4]

/-- Witness for C6 at the unknown type string `bogus`. -/
theorem make_queue_closed_map_witness :
    make_queue "bogus" "q" [] =
      Except.error (PyError.valueError ("Unknown queue type: " ++ "bogus")) :=
  (make_queue_closed_map "bogus" "q" []).2.2.2.2 (by decide)

/-- C7: `make_seed_tile_generator` fails with an assertion error — producing
no tiles at all — whenever a metro-extract URL is given with
`filter_metro_zoom > zoom_until`, or `zoom_start` exceeds the unfiltered end
zoom. -/
theorem make_seed_tile_generator_contract_violation (cfg : SeedCfg)
    (metroTiles : List Coord)
    (h : (cfg.metro_extract_url.isSome ∧ cfg.zoom_until < cfg.filter_metro_zoom)
        ∨ unfiltered_end_zoom_of cfg < (cfg.zoom_start : Int)) :
    ∃ msg, make_seed_tile_generator cfg metroTiles =
        Except.error (PyError.assertionError msg) := by
  obtain ⟨url, flt, zu, zs, uniq⟩ := cfg
  simp only [unfiltered_end_zoom_of] at h
  cases url with
  | none =>
      rcases h with ⟨hsome, _⟩ | hlt
      · simp at hsome
      · simp only at hlt
        simp only [make_seed_tile_generator]
        split_ifs with h1 h2
        · exact absurd h2 (by omega)
        · exact ⟨_, rfl⟩
        · exact ⟨_, rfl⟩
  | some u =>
      simp only [make_seed_tile_generator]
      rcases h with ⟨_, hz⟩ | hlt
      · split_ifs with h1 h2
        · exact absurd h1 (by omega)
        · exact ⟨_, rfl⟩
        · exact ⟨_, rfl⟩
      · simp only at hlt
        split_ifs with h1 h2
        · exact absurd h2 (by omega)
        · exact ⟨_, rfl⟩
        · exact ⟨_, rfl⟩

/-- Witness for C7: a metro URL with filter zoom 5 above zoom-until 3. -/
theorem make_seed_tile_generator_contract_violation_witness :
    ∃ msg, make_seed_tile_generator (SeedCfg.mk (some "u") 5 3 0 false) [] =
        Except.error (PyError.assertionError msg) :=
  make_seed_tile_generator_contract_violation _ _ (Or.inl ⟨rfl, by decide⟩)

/-- C8: every invocation of the command-line entry point builds the Redis
cache index before dispatching any subcommand, so when `redis_host`,
`redis_port` or `redis_cache_set_key` is unset, `tilequeue_main` fails with
an assertion error for every subcommand — including drain, seed and explode,
which never use the cache index. -/
theorem tilequeue_main_requires_redis_config (cfg : MainCfg) (cmd : Subcommand)
    (fs : FileSystem)
    (h : cfg.redis_host = none ∨ cfg.redis_port = none ∨
      cfg.redis_cache_set_key = none) :
    ∃ msg, tilequeue_main cfg cmd fs =
        Except.error (PyError.assertionError msg) := by
  obtain ⟨msg, hmsg⟩ := assert_redis_config_unset cfg h
  exact ⟨msg, by simp [tilequeue_main, make_redis_cache_index, hmsg]⟩

/-- Witness for C8: unset redis host, `drain` subcommand. -/
theorem tilequeue_main_requires_redis_config_witness :
    ∃ msg, tilequeue_main (MainCfg.mk none (some 6379) (some 0) (some "k") "mem" "q")
        Subcommand.drain [] = Except.error (PyError.assertionError msg) :=
  tilequeue_main_requires_redis_config _ Subcommand.drain [] (Or.inl rfl)

/-- C9: constructing a `'file'`-type queue opens the file named by
`queue_name` in write mode at construction time: for every pre-existing file
at that path, its contents are an empty string immediately after
`make_queue` returns, before any enqueue is performed. -/
theorem file_queue_truncates_on_construction (qn : String) (fs : FileSystem)
    (prior : String) (h : fsLookup fs qn = some prior) :
    make_queue "file" qn fs =
        Except.ok (QueueBackend.fileQueue qn, fsWrite fs qn "")
    ∧ fsLookup (fsWrite fs qn "") qn = some "" := by
  constructor
  · rfl
  · simp [fsLookup, fsWrite, List.lookup]

/-- Witness for C9: a pre-existing file with contents `old` is truncated. -/
theorem file_queue_truncates_on_construction_witness :
    make_queue "file" "q" [("q", "old")] =
        Except.ok (QueueBackend.fileQueue "q", fsWrite [("q", "old")] "q" "")
    ∧ fsLookup (fsWrite [("q", "old")] "q" "") "q" = some "" :=
  file_queue_truncates_on_construction "q" [("q", "old")] "old" rfl

/-- C10: `uniquify_generator` yields each distinct element of the input
exactly once and nothing else (the multiset of outputs is the set of
inputs); it does not preserve the input order (input [2, 1] comes out as
[1, 2]); and because the whole input is materialized into a set first, the
first yielded element already depends on later input elements (the head for
input [2] is 2, while for input [2, 1] it is 1). -/
theorem uniquify_generator_spec :
    (∀ (l : List Nat) (x : Nat),
        (uniquify_generator l).count x = if x ∈ l then 1 else 0)
    ∧ uniquify_generator [2, 1] = [1, 2]
    ∧ (uniquify_generator [2]).head? = some 2
    ∧ (uniquify_generator [2, 1]).head? = some 1 := by
  refine ⟨?_, by decide, by decide, by decide⟩
  intro l x
  have hperm : List.Perm (uniquify_generator l) l.dedup :=
    List.perm_insertionSort _ _
  rw [hperm.count_eq, List.count_dedup]
